import Mathlib

/-!
Verification of the rerun-eligibility resolver in
`src/app/src/ui/check-runs/ci-check-run-rerun-dialog.tsx`.

The resolver classifies CI check runs into `rerunnable` / `nonRerunnable`
using per-suite metadata fetched from a remote service, and on confirm
submits the rerun request followed by a status refresh.

The embedding below follows the TypeScript source line by line:
  - `determineRerunnability` (lines 82-134) becomes a pure pipeline over a
    fetch function `Nat → Option IAPICheckSuite` (the dispatcher's
    `fetchCheckSuite` resolves to `IAPICheckSuite | null` per its contract);
  - `onSubmit` (lines 65-80) becomes an event trace;
  - the dialog state and the confirm-button guard (lines 54-63, 215)
    become `DialogState` / `okButtonDisabled`.
Machine times are modelled as `Int` milliseconds since the epoch (the
value of `Date.parse` / `Date.now()`).
-/

set_option autoImplicit false

namespace RerunDialog

/-- Check-run conclusions from the remote API (`APICheckConclusion` in
`lib/api`).  Only `failure` is inspected by the resolver. -/
inductive APICheckConclusion where
  | actionRequired
  | cancelled
  | timedOut
  | failure
  | neutral
  | success
  | skipped
  | stale
deriving DecidableEq, Repr

/-- Check statuses from the remote API (`APICheckStatus` in `lib/api`). -/
inductive APICheckStatus where
  | queued
  | inProgress
  | completed
deriving DecidableEq, Repr

/-- A check run (`IRefCheck`), restricted to the attributes the resolver
reads: its id, its owning suite id (nullable) and its conclusion
(nullable).  The remaining `IRefCheck` fields (name, description, …) are
presentation-only and never inspected by the resolver. -/
structure IRefCheck where
  id : Nat
  checkSuiteId : Option Nat
  conclusion : Option APICheckConclusion
deriving DecidableEq, Repr

/-- A fetched check suite (`IAPICheckSuite`), restricted to the attributes
the eligibility predicate reads.  `createdAt` is the integer returned by
`Date.parse(cs.created_at)`: milliseconds since the epoch. -/
structure IAPICheckSuite where
  id : Nat
  createdAt : Int
  rerequestable : Bool
  status : APICheckStatus
deriving DecidableEq, Repr

/-- Milliseconds in one day. -/
def msPerDay : Int := 86400000

/-- Modelled from the spec: `offsetFromNow(amount, 'days')` from
`src/app/src/lib/offset-from` is not among the sources; the spec (§4.1
step 4) describes the cutoff as "now minus 30 days", so
`offsetFromNow now amount = now + amount * 86400000` (milliseconds),
with `now` the value of `Date.now()` passed explicitly. -/
def offsetFromNow (now : Int) (amount : Int) : Int :=
  now + amount * msPerDay

/-- Lines 83-87: the working subset.  If `failedOnly`, keep only the runs
whose conclusion is `Failure`; otherwise keep all runs. -/
def checkRunsToConsider (checkRuns : List IRefCheck) (failedOnly : Bool) :
    List IRefCheck :=
  if failedOnly then
    checkRuns.filter (fun cr => decide (cr.conclusion = some APICheckConclusion.failure))
  else
    checkRuns

/-- Lines 90-92: `new Set(...)` over the mapped suite ids.  A JavaScript
`Set` keeps insertion order and keeps the first occurrence of each
element, which this fold reproduces. -/
def dedupKeepFirst {α : Type} [DecidableEq α] (l : List α) : List α :=
  l.foldl (fun acc a => if a ∈ acc then acc else acc ++ [a]) []

/-- Lines 90-92: the deduplicated list of (possibly null) suite ids of the
working subset. -/
def checkSuiteIds (considered : List IRefCheck) : List (Option Nat) :=
  dedupKeepFirst (considered.map (fun cr => cr.checkSuiteId))

/-- Lines 96-103: the loop skips `null` ids and issues one fetch per
remaining id, in order. -/
def suiteIdsToFetch (ids : List (Option Nat)) : List Nat :=
  ids.filterMap id

/-- Lines 96-106: the list of settled fetch results, in the order the
fetches were issued (`Promise.all` preserves the order of its argument
array regardless of settle order). -/
def checkSuiteResults (fetch : Nat → Option IAPICheckSuite)
    (ids : List (Option Nat)) : List (Option IAPICheckSuite) :=
  (suiteIdsToFetch ids).map fetch

/-- Lines 112-116: the three-clause eligibility predicate on one fetched
suite: rerequestable, created strictly later than now minus 30 days, and
completed. -/
def suiteEligible (now : Int) (cs : IAPICheckSuite) : Bool :=
  cs.rerequestable
    && decide (cs.createdAt > offsetFromNow now (-30))
    && decide (cs.status = APICheckStatus.completed)

/-- Lines 105-119: build `rerequestableCheckSuiteIds` by scanning the
settled results in order; a `null` result is skipped, an eligible suite
pushes its own `id`. -/
def rerequestableCheckSuiteIds (now : Int)
    (results : List (Option IAPICheckSuite)) : List Nat :=
  results.foldl
    (fun acc ocs =>
      match ocs with
      | none => acc
      | some cs => if suiteEligible now cs then acc ++ [cs.id] else acc)
    []

/-- `Array.prototype.includes` on a `number[]` applied to a possibly-null
id: `includes(null)` is `false` on a list of numbers. -/
def includesOpt (ids : List Nat) (o : Option Nat) : Bool :=
  match o with
  | none => false
  | some i => decide (i ∈ ids)

/-- Lines 121-125: `rerunnable` filters the working subset to the runs
whose suite id is non-null and contained in the eligible-id list. -/
def rerunnableOf (considered : List IRefCheck) (eligibleIds : List Nat) :
    List IRefCheck :=
  considered.filter
    (fun cr => !decide (cr.checkSuiteId = none) && includesOpt eligibleIds cr.checkSuiteId)

/-- Lines 126-131: `nonRerunnable` filters the FULL original run list: a
run lands here when its suite id is null, or not in the eligible-id list,
or (`failedOnly` and its own conclusion is `Failure`). -/
def nonRerunnableOf (checkRuns : List IRefCheck) (eligibleIds : List Nat)
    (failedOnly : Bool) : List IRefCheck :=
  checkRuns.filter
    (fun cr =>
      decide (cr.checkSuiteId = none)
        || !includesOpt eligibleIds cr.checkSuiteId
        || (failedOnly && decide (cr.conclusion = some APICheckConclusion.failure)))

/-- The partition produced by one classification pass. -/
structure ClassificationResult where
  rerunnable : List IRefCheck
  nonRerunnable : List IRefCheck
deriving DecidableEq, Repr

/-- Lines 105-133 given an arbitrary list of settled fetch results: build
the eligible-id list, then the partition. -/
def classifyWithResults (checkRuns : List IRefCheck) (failedOnly : Bool)
    (now : Int) (results : List (Option IAPICheckSuite)) :
    ClassificationResult :=
  let considered := checkRunsToConsider checkRuns failedOnly
  let eligibleIds := rerequestableCheckSuiteIds now results
  { rerunnable := rerunnableOf considered eligibleIds
    nonRerunnable := nonRerunnableOf checkRuns eligibleIds failedOnly }

/-- Lines 82-133, `determineRerunnability`: the full classification pass,
with the dispatcher's `fetchCheckSuite` abstracted as a function from
suite id to `IAPICheckSuite | null`. -/
def determineRerunnability (checkRuns : List IRefCheck) (failedOnly : Bool)
    (fetch : Nat → Option IAPICheckSuite) (now : Int) : ClassificationResult :=
  classifyWithResults checkRuns failedOnly now
    (checkSuiteResults fetch (checkSuiteIds (checkRunsToConsider checkRuns failedOnly)))

/-- The component state (`ICICheckRunRerunDialogState`, lines 40-45). -/
structure DialogState where
  loadingCheckSuites : Bool
  loadingRerun : Bool
  rerunnable : List IRefCheck
  nonRerunnable : List IRefCheck
deriving DecidableEq, Repr

/-- The constructor's initial state (lines 56-61). -/
def initialState : DialogState :=
  { loadingCheckSuites := true
    loadingRerun := false
    rerunnable := []
    nonRerunnable := [] }

/-- Line 133: `setState({ loadingCheckSuites: false, rerunnable,
nonRerunnable })` applied to a dialog state. -/
def applyClassification (st : DialogState) (res : ClassificationResult) :
    DialogState :=
  { st with
    loadingCheckSuites := false
    rerunnable := res.rerunnable
    nonRerunnable := res.nonRerunnable }

/-- Line 215: the confirm (OK) button is disabled exactly when
`rerunnable` is empty. -/
def okButtonDisabled (st : DialogState) : Bool :=
  decide (st.rerunnable.length = 0)

/-- The observable steps of `onSubmit` (lines 65-80).  `awaited` marks the
resolution of the preceding asynchronous call (`await`). -/
inductive SubmitEvent where
  | setLoadingRerun
  | rerequestCheckSuites (runs : List IRefCheck) (failedOnly : Bool)
  | awaited
  | manualRefreshSubscription (prRef : String) (runs : List IRefCheck)
  | recordRerunChecks
  | onDismissed
deriving DecidableEq, Repr

/-- Lines 65-80 as an event trace: enter the submitting state, await the
rerun submission for the current `rerunnable` set with `failedOnly`
passed through, await the status refresh for the same ref and set, record
the telemetry event without awaiting it, then dismiss. -/
def onSubmitTrace (rerunnable : List IRefCheck) (prRef : String)
    (failedOnly : Bool) : List SubmitEvent :=
  [ SubmitEvent.setLoadingRerun
  , SubmitEvent.rerequestCheckSuites rerunnable failedOnly
  , SubmitEvent.awaited
  , SubmitEvent.manualRefreshSubscription prRef rerunnable
  , SubmitEvent.awaited
  , SubmitEvent.recordRerunChecks
  , SubmitEvent.onDismissed ]

/-- The spec's worked example: five check runs, three failures (suites 1,
1, 2) and two successes (suite 3). -/
def exampleFiveRuns : List IRefCheck :=
  [ { id := 1, checkSuiteId := some 1, conclusion := some APICheckConclusion.failure }
  , { id := 2, checkSuiteId := some 1, conclusion := some APICheckConclusion.failure }
  , { id := 3, checkSuiteId := some 2, conclusion := some APICheckConclusion.failure }
  , { id := 4, checkSuiteId := some 3, conclusion := some APICheckConclusion.success }
  , { id := 5, checkSuiteId := some 3, conclusion := some APICheckConclusion.success } ]

/-- A fetch under which suites 1 and 2 (the failures' suites) are
eligible and every other lookup returns no result. -/
def exampleFetch : Nat → Option IAPICheckSuite := fun i =>
  if i ≤ 2 then
    some { id := i, createdAt := 0, rerequestable := true,
           status := APICheckStatus.completed }
  else
    none

/-! ### Helper lemmas: membership characterizations of each stage -/

theorem mem_foldl_dedup {α : Type} [DecidableEq α] (l acc : List α) (a : α) :
    a ∈ l.foldl (fun acc b => if b ∈ acc then acc else acc ++ [b]) acc ↔
      a ∈ acc ∨ a ∈ l := by
  induction l generalizing acc with
  | nil => simp
  | cons b l ih =>
    simp only [List.foldl_cons]
    by_cases hb : b ∈ acc
    · rw [if_pos hb, ih]
      simp only [List.mem_cons]
      constructor
      · rintro (h | h) <;> tauto
      · rintro (h | rfl | h) <;> tauto
    · rw [if_neg hb, ih]
      simp only [List.mem_append, List.mem_singleton, List.mem_cons]
      tauto

theorem mem_dedupKeepFirst {α : Type} [DecidableEq α] (l : List α) (a : α) :
    a ∈ dedupKeepFirst l ↔ a ∈ l := by
  rw [dedupKeepFirst, mem_foldl_dedup]
  simp

theorem nodup_foldl_dedup {α : Type} [DecidableEq α] (l acc : List α)
    (hacc : acc.Nodup) :
    (l.foldl (fun acc b => if b ∈ acc then acc else acc ++ [b]) acc).Nodup := by
  induction l generalizing acc with
  | nil => simpa using hacc
  | cons b l ih =>
    simp only [List.foldl_cons]
    by_cases hb : b ∈ acc
    · rw [if_pos hb]
      exact ih acc hacc
    · rw [if_neg hb]
      refine ih (acc ++ [b]) ?_
      simp [List.nodup_append, hacc, hb]

theorem nodup_dedupKeepFirst {α : Type} [DecidableEq α] (l : List α) :
    (dedupKeepFirst l).Nodup :=
  nodup_foldl_dedup l [] List.nodup_nil

theorem suiteEligible_iff (now : Int) (cs : IAPICheckSuite) :
    suiteEligible now cs = true ↔
      cs.rerequestable = true ∧ cs.createdAt > offsetFromNow now (-30) ∧
        cs.status = APICheckStatus.completed := by
  simp [suiteEligible, Bool.and_eq_true, decide_eq_true_eq, and_assoc]

theorem rerequestable_foldl_eq (now : Int)
    (results : List (Option IAPICheckSuite)) (acc : List Nat) :
    results.foldl
        (fun acc ocs =>
          match ocs with
          | none => acc
          | some cs => if suiteEligible now cs then acc ++ [cs.id] else acc)
        acc =
      acc ++ results.filterMap
        (fun ocs =>
          match ocs with
          | none => none
          | some cs => if suiteEligible now cs then some cs.id else none) := by
  induction results generalizing acc with
  | nil => simp
  | cons ocs rest ih =>
    cases ocs with
    | none => simpa using ih acc
    | some cs =>
      by_cases h : suiteEligible now cs
      · simp [h, ih, List.append_assoc]
      · simp [h, ih]

theorem rerequestableCheckSuiteIds_eq_filterMap (now : Int)
    (results : List (Option IAPICheckSuite)) :
    rerequestableCheckSuiteIds now results =
      results.filterMap
        (fun ocs =>
          match ocs with
          | none => none
          | some cs => if suiteEligible now cs then some cs.id else none) := by
  rw [rerequestableCheckSuiteIds, rerequestable_foldl_eq]
  simp

theorem mem_rerequestableCheckSuiteIds (now : Int)
    (results : List (Option IAPICheckSuite)) (i : Nat) :
    i ∈ rerequestableCheckSuiteIds now results ↔
      ∃ cs : IAPICheckSuite, some cs ∈ results ∧ suiteEligible now cs = true ∧
        cs.id = i := by
  rw [rerequestableCheckSuiteIds_eq_filterMap, List.mem_filterMap]
  constructor
  · rintro ⟨ocs, hmem, hg⟩
    cases ocs with
    | none => simp at hg
    | some cs =>
      by_cases h : suiteEligible now cs
      · refine ⟨cs, hmem, h, ?_⟩
        simpa [h] using hg
      · simp [h] at hg
  · rintro ⟨cs, hmem, helig, hid⟩
    exact ⟨some cs, hmem, by simp [helig, hid]⟩

theorem mem_checkRunsToConsider (checkRuns : List IRefCheck)
    (failedOnly : Bool) (cr : IRefCheck) :
    cr ∈ checkRunsToConsider checkRuns failedOnly ↔
      cr ∈ checkRuns ∧
        (failedOnly = true → cr.conclusion = some APICheckConclusion.failure) := by
  cases failedOnly with
  | false => simp [checkRunsToConsider]
  | true => simp [checkRunsToConsider, List.mem_filter]

theorem includesOpt_eq_true_iff (ids : List Nat) (o : Option Nat) :
    includesOpt ids o = true ↔ ∃ i, o = some i ∧ i ∈ ids := by
  cases o <;> simp [includesOpt]

theorem mem_rerunnableOf (considered : List IRefCheck)
    (eligibleIds : List Nat) (cr : IRefCheck) :
    cr ∈ rerunnableOf considered eligibleIds ↔
      cr ∈ considered ∧
        ∃ i, cr.checkSuiteId = some i ∧ i ∈ eligibleIds := by
  rw [rerunnableOf, List.mem_filter]
  cases h : cr.checkSuiteId <;>
    simp [h, includesOpt]

theorem mem_nonRerunnableOf (checkRuns : List IRefCheck)
    (eligibleIds : List Nat) (failedOnly : Bool) (cr : IRefCheck) :
    cr ∈ nonRerunnableOf checkRuns eligibleIds failedOnly ↔
      cr ∈ checkRuns ∧
        (cr.checkSuiteId = none ∨
          includesOpt eligibleIds cr.checkSuiteId = false ∨
          (failedOnly = true ∧
            cr.conclusion = some APICheckConclusion.failure)) := by
  rw [nonRerunnableOf, List.mem_filter]
  simp only [Bool.or_eq_true, Bool.and_eq_true, decide_eq_true_eq,
    Bool.not_eq_true']
  tauto

theorem mem_rerunnable_determineRerunnability (checkRuns : List IRefCheck)
    (failedOnly : Bool) (fetch : Nat → Option IAPICheckSuite) (now : Int)
    (cr : IRefCheck) :
    cr ∈ (determineRerunnability checkRuns failedOnly fetch now).rerunnable ↔
      cr ∈ checkRunsToConsider checkRuns failedOnly ∧
        ∃ i, cr.checkSuiteId = some i ∧
          i ∈ rerequestableCheckSuiteIds now
              (checkSuiteResults fetch
                (checkSuiteIds (checkRunsToConsider checkRuns failedOnly))) := by
  rw [determineRerunnability, classifyWithResults]
  exact mem_rerunnableOf _ _ _

theorem mem_nonRerunnable_determineRerunnability (checkRuns : List IRefCheck)
    (failedOnly : Bool) (fetch : Nat → Option IAPICheckSuite) (now : Int)
    (cr : IRefCheck) :
    cr ∈ (determineRerunnability checkRuns failedOnly fetch now).nonRerunnable ↔
      cr ∈ checkRuns ∧
        (cr.checkSuiteId = none ∨
          includesOpt
              (rerequestableCheckSuiteIds now
                (checkSuiteResults fetch
                  (checkSuiteIds (checkRunsToConsider checkRuns failedOnly))))
              cr.checkSuiteId = false ∨
          (failedOnly = true ∧
            cr.conclusion = some APICheckConclusion.failure)) := by
  rw [determineRerunnability, classifyWithResults]
  exact mem_nonRerunnableOf _ _ _ _

theorem complement_helper (checkRuns : List IRefCheck)
    (fetch : Nat → Option IAPICheckSuite) (now : Int) (cr : IRefCheck)
    (h : cr ∈ checkRuns) :
    cr ∈ (determineRerunnability checkRuns false fetch now).rerunnable ↔
      cr ∉ (determineRerunnability checkRuns false fetch now).nonRerunnable := by
  rw [mem_rerunnable_determineRerunnability,
    mem_nonRerunnable_determineRerunnability]
  have hc : cr ∈ checkRunsToConsider checkRuns false := by
    simpa [checkRunsToConsider] using h
  cases hid : cr.checkSuiteId with
  | none => simp [h, hc, hid, includesOpt]
  | some i => simp [h, hc, hid, includesOpt]

/-! ### Claim theorems -/

/-- C1: a fetched check suite's id is placed in the eligible-suite-id set
iff the suite is rerequestable, its creation timestamp is strictly
greater than now minus 30 days, and its status is completed; a suite
failing any clause or whose fetch returned no result is excluded.  A
suite exactly 30 days old is ineligible; one 29 days 23 hours old passes
the age clause. -/
theorem fetched_suite_eligibility (now : Int) :
    (∀ (results : List (Option IAPICheckSuite)) (i : Nat),
        i ∈ rerequestableCheckSuiteIds now results ↔
          ∃ cs : IAPICheckSuite, some cs ∈ results ∧ cs.id = i ∧
            cs.rerequestable = true ∧
            cs.createdAt > offsetFromNow now (-30) ∧
            cs.status = APICheckStatus.completed)
    ∧ (∀ cs : IAPICheckSuite, cs.createdAt = now - 30 * msPerDay →
        suiteEligible now cs = false)
    ∧ (∀ cs : IAPICheckSuite,
        cs.createdAt = now - (29 * msPerDay + 23 * 3600000) →
        cs.rerequestable = true → cs.status = APICheckStatus.completed →
        suiteEligible now cs = true) := by
  refine ⟨?_, ?_, ?_⟩
  · intro results i
    rw [mem_rerequestableCheckSuiteIds]
    constructor
    · rintro ⟨cs, hmem, helig, hid⟩
      obtain ⟨h1, h2, h3⟩ := (suiteEligible_iff now cs).mp helig
      exact ⟨cs, hmem, hid, h1, h2, h3⟩
    · rintro ⟨cs, hmem, hid, h1, h2, h3⟩
      exact ⟨cs, hmem, (suiteEligible_iff now cs).mpr ⟨h1, h2, h3⟩, hid⟩
  · intro cs hage
    have hnot : ¬ cs.createdAt > offsetFromNow now (-30) := by
      rw [hage]
      simp only [offsetFromNow, msPerDay]
      omega
    simp [suiteEligible, hnot]
  · intro cs hage hrer hstat
    have hgt : cs.createdAt > offsetFromNow now (-30) := by
      rw [hage]
      simp only [offsetFromNow, msPerDay]
      omega
    simp [suiteEligible, hrer, hgt, hstat]

/-- Witness for C1: a suite created exactly 30 days before now is
ineligible even when rerequestable and completed. -/
theorem fetched_suite_eligibility_witness :
    suiteEligible 0
        { id := 1, createdAt := 0 - 30 * msPerDay, rerequestable := true,
          status := APICheckStatus.completed } = false :=
  (fetched_suite_eligibility 0).2.1 _ rfl

/-- C3: `nonRerunnable` is computed from the full original run list, and a
run lands in it exactly when its suite id is null, or its suite id is not
in the eligible-suite-id set, or `failedOnly` is set and the run's own
conclusion is failure. -/
theorem nonRerunnable_from_full_list (checkRuns : List IRefCheck)
    (failedOnly : Bool) (fetch : Nat → Option IAPICheckSuite) (now : Int)
    (cr : IRefCheck) :
    cr ∈ (determineRerunnability checkRuns failedOnly fetch now).nonRerunnable ↔
      cr ∈ checkRuns ∧
        (cr.checkSuiteId = none ∨
          includesOpt
              (rerequestableCheckSuiteIds now
                (checkSuiteResults fetch
                  (checkSuiteIds (checkRunsToConsider checkRuns failedOnly))))
              cr.checkSuiteId = false ∨
          (failedOnly = true ∧
            cr.conclusion = some APICheckConclusion.failure)) :=
  mem_nonRerunnable_determineRerunnability checkRuns failedOnly fetch now cr

/-- Witness for C3: with `failedOnly` set, a succeeded run from the full
list whose suite is ineligible is classified non-rerunnable even though
it is outside the working subset. -/
theorem nonRerunnable_from_full_list_witness :
    { id := 4, checkSuiteId := some 3,
      conclusion := some APICheckConclusion.success : IRefCheck } ∈
      (determineRerunnability exampleFiveRuns true exampleFetch 0).nonRerunnable := by
  rw [nonRerunnable_from_full_list]
  refine ⟨by decide, Or.inr (Or.inl (by decide))⟩

/-- C4: classification selects the working subset (failures only when
`failedOnly`, otherwise all runs) and `rerunnable` is exactly the
working-subset runs whose non-null suite id is in the eligible-suite-id
set; on the spec's five-run example with `failedOnly` the three failures
with eligible suites are rerunnable. -/
theorem rerunnable_from_working_subset :
    (∀ (checkRuns : List IRefCheck) (failedOnly : Bool)
        (fetch : Nat → Option IAPICheckSuite) (now : Int) (cr : IRefCheck),
        cr ∈ (determineRerunnability checkRuns failedOnly fetch now).rerunnable ↔
          cr ∈ checkRunsToConsider checkRuns failedOnly ∧
            ∃ i, cr.checkSuiteId = some i ∧
              i ∈ rerequestableCheckSuiteIds now
                  (checkSuiteResults fetch
                    (checkSuiteIds (checkRunsToConsider checkRuns failedOnly))))
    ∧ (∀ checkRuns : List IRefCheck, checkRunsToConsider checkRuns false = checkRuns)
    ∧ (∀ (checkRuns : List IRefCheck) (cr : IRefCheck),
        cr ∈ checkRunsToConsider checkRuns true ↔
          cr ∈ checkRuns ∧ cr.conclusion = some APICheckConclusion.failure)
    ∧ (determineRerunnability exampleFiveRuns true exampleFetch 0).rerunnable.length = 3 := by
  refine ⟨mem_rerunnable_determineRerunnability, ?_, ?_, by decide⟩
  · intro checkRuns
    simp [checkRunsToConsider]
  · intro checkRuns cr
    simp [checkRunsToConsider, List.mem_filter]

/-- Witness for C4: the rerunnable runs of the five-run example are
exactly the failures, via the membership characterization. -/
theorem rerunnable_from_working_subset_witness :
    { id := 3, checkSuiteId := some 2,
      conclusion := some APICheckConclusion.failure : IRefCheck } ∈
      (determineRerunnability exampleFiveRuns true exampleFetch 0).rerunnable := by
  rw [rerunnable_from_working_subset.1]
  exact ⟨by decide, 2, rfl, by decide⟩

/-- C2 counterexample: with `failedOnly = true`, a failed run whose suite
is eligible appears in BOTH lists — `rerunnable` takes it from the
working subset while the redundant failed-only clause of the
`nonRerunnable` filter (line 130) re-admits it — refuting "each input run
appears in exactly one of the two lists" as stated for every
`failedOnly`. -/
theorem partition_exactly_one_counterexample :
    ({ id := 1, checkSuiteId := some 1,
       conclusion := some APICheckConclusion.failure : IRefCheck } ∈
        (determineRerunnability
          [{ id := 1, checkSuiteId := some 1,
             conclusion := some APICheckConclusion.failure }]
          true
          (fun i =>
            if i = 1 then
              some { id := 1, createdAt := 0, rerequestable := true,
                     status := APICheckStatus.completed }
            else none)
          0).rerunnable)
    ∧ ({ id := 1, checkSuiteId := some 1,
         conclusion := some APICheckConclusion.failure : IRefCheck } ∈
        (determineRerunnability
          [{ id := 1, checkSuiteId := some 1,
             conclusion := some APICheckConclusion.failure }]
          true
          (fun i =>
            if i = 1 then
              some { id := 1, createdAt := 0, rerequestable := true,
                     status := APICheckStatus.completed }
            else none)
          0).nonRerunnable) := by
  decide

/-- C2 (amended): runs with a null suite id never enter `rerunnable` and
always enter `nonRerunnable`; and when `failedOnly` is false every input
run appears in exactly one of the two lists.  (With `failedOnly` true a
failed run with an eligible suite appears in both lists, and a
non-failed run with an eligible suite appears in neither.) -/
theorem partition_amended (checkRuns : List IRefCheck)
    (fetch : Nat → Option IAPICheckSuite) (now : Int) (failedOnly : Bool)
    (cr : IRefCheck) (h : cr ∈ checkRuns) :
    (cr.checkSuiteId = none →
      cr ∉ (determineRerunnability checkRuns failedOnly fetch now).rerunnable ∧
        cr ∈ (determineRerunnability checkRuns failedOnly fetch now).nonRerunnable)
    ∧ (failedOnly = false →
      (cr ∈ (determineRerunnability checkRuns failedOnly fetch now).rerunnable ↔
        cr ∉ (determineRerunnability checkRuns failedOnly fetch now).nonRerunnable)) := by
  constructor
  · intro hnull
    constructor
    · rw [mem_rerunnable_determineRerunnability]
      rintro ⟨-, i, hsome, -⟩
      rw [hnull] at hsome
      exact Option.noConfusion hsome
    · rw [mem_nonRerunnable_determineRerunnability]
      exact ⟨h, Or.inl hnull⟩
  · rintro rfl
    exact complement_helper checkRuns fetch now cr h

/-- Witness for C2 (amended): a run with a null suite id is classified
only as non-rerunnable. -/
theorem partition_amended_witness :
    ({ id := 7, checkSuiteId := none, conclusion := none : IRefCheck } ∉
      (determineRerunnability
        [{ id := 7, checkSuiteId := none, conclusion := none }]
        true (fun _ => none) 0).rerunnable)
    ∧ ({ id := 7, checkSuiteId := none, conclusion := none : IRefCheck } ∈
      (determineRerunnability
        [{ id := 7, checkSuiteId := none, conclusion := none }]
        true (fun _ => none) 0).nonRerunnable) :=
  (partition_amended
    [{ id := 7, checkSuiteId := none, conclusion := none }]
    (fun _ => none) 0 true
    { id := 7, checkSuiteId := none, conclusion := none }
    (by decide)).1 rfl

/-- C10: when `failedOnly` is false, `nonRerunnable` is exactly the
complement of `rerunnable` within the input run list: each input run is
in `rerunnable` iff it is not in `nonRerunnable`. -/
theorem complement_when_not_failedOnly (checkRuns : List IRefCheck)
    (fetch : Nat → Option IAPICheckSuite) (now : Int) (cr : IRefCheck)
    (h : cr ∈ checkRuns) :
    cr ∈ (determineRerunnability checkRuns false fetch now).rerunnable ↔
      cr ∉ (determineRerunnability checkRuns false fetch now).nonRerunnable :=
  complement_helper checkRuns fetch now cr h

/-- Witness for C10: concrete instance of the complement equivalence. -/
theorem complement_when_not_failedOnly_witness :
    ({ id := 1, checkSuiteId := some 1, conclusion := none : IRefCheck } ∈
      (determineRerunnability
        [{ id := 1, checkSuiteId := some 1, conclusion := none }]
        false (fun _ => none) 0).rerunnable ↔
      { id := 1, checkSuiteId := some 1, conclusion := none : IRefCheck } ∉
      (determineRerunnability
        [{ id := 1, checkSuiteId := some 1, conclusion := none }]
        false (fun _ => none) 0).nonRerunnable) :=
  complement_when_not_failedOnly
    [{ id := 1, checkSuiteId := some 1, conclusion := none }]
    (fun _ => none) 0
    { id := 1, checkSuiteId := some 1, conclusion := none }
    (by decide)

/-- C5: one suite's fetch returning no result only makes that suite
ineligible; classification (a total function here) still completes, and a
run of a different suite whose fetch resolved to an eligible suite still
lands in `rerunnable`. -/
theorem fetch_failure_isolated (checkRuns : List IRefCheck)
    (failedOnly : Bool) (fetch : Nat → Option IAPICheckSuite) (now : Int)
    (a : Nat) (cr : IRefCheck) (i : Nat) (cs : IAPICheckSuite)
    (_hfail : fetch a = none)
    (hmem : cr ∈ checkRunsToConsider checkRuns failedOnly)
    (hid : cr.checkSuiteId = some i)
    (hfetch : fetch i = some cs)
    (hcsid : cs.id = i)
    (helig : suiteEligible now cs = true) :
    cr ∈ (determineRerunnability checkRuns failedOnly fetch now).rerunnable := by
  rw [mem_rerunnable_determineRerunnability]
  refine ⟨hmem, i, hid, ?_⟩
  have hids : i ∈ suiteIdsToFetch (checkSuiteIds (checkRunsToConsider checkRuns failedOnly)) := by
    rw [suiteIdsToFetch, List.mem_filterMap]
    refine ⟨some i, ?_, rfl⟩
    rw [checkSuiteIds, mem_dedupKeepFirst, List.mem_map]
    exact ⟨cr, hmem, hid⟩
  have hres : some cs ∈
      checkSuiteResults fetch (checkSuiteIds (checkRunsToConsider checkRuns failedOnly)) := by
    rw [checkSuiteResults, List.mem_map]
    exact ⟨i, hids, hfetch⟩
  rw [mem_rerequestableCheckSuiteIds]
  exact ⟨cs, hres, helig, hcsid⟩

/-- Witness for C5: suite 5's fetch returns no result, yet the failed run
of suite 2 (fetched eligible) is still rerunnable. -/
theorem fetch_failure_isolated_witness :
    { id := 1, checkSuiteId := some 2,
      conclusion := some APICheckConclusion.failure : IRefCheck } ∈
      (determineRerunnability
        [{ id := 1, checkSuiteId := some 2,
           conclusion := some APICheckConclusion.failure }]
        true exampleFetch 0).rerunnable :=
  fetch_failure_isolated
    [{ id := 1, checkSuiteId := some 2,
       conclusion := some APICheckConclusion.failure }]
    true exampleFetch 0 5
    { id := 1, checkSuiteId := some 2,
      conclusion := some APICheckConclusion.failure }
    2
    { id := 2, createdAt := 0, rerequestable := true,
      status := APICheckStatus.completed }
    (by decide) (by decide) rfl (by decide) rfl (by decide)

/-- C7: the confirm (OK) button is disabled whenever `rerunnable` is
empty — in particular in the initial (still-classifying) state — so the
submission phase is only reachable from a state with at least one
rerunnable run. -/
theorem confirm_requires_rerunnable :
    okButtonDisabled initialState = true ∧
      ∀ st : DialogState, okButtonDisabled st = false → st.rerunnable ≠ [] := by
  refine ⟨rfl, ?_⟩
  intro st hst
  simp only [okButtonDisabled, decide_eq_false_iff_not] at hst
  intro hempty
  rw [hempty] at hst
  exact hst rfl

/-- Witness for C7: a state whose confirm button is enabled has a
non-empty rerunnable list. -/
theorem confirm_requires_rerunnable_witness :
    ({ loadingCheckSuites := false, loadingRerun := false,
       rerunnable := [{ id := 1, checkSuiteId := some 1, conclusion := none }],
       nonRerunnable := [] : DialogState }).rerunnable ≠ [] :=
  confirm_requires_rerunnable.2
    { loadingCheckSuites := false, loadingRerun := false,
      rerunnable := [{ id := 1, checkSuiteId := some 1, conclusion := none }],
      nonRerunnable := [] }
    rfl

/-- C9: classification is the partition computed from the settled fetch
results; that partition is invariant under permutation of the order in
which the per-suite results settle, and exactly one fetch is issued per
distinct non-null suite id (the issued-id list has no duplicates). -/
theorem classification_order_invariant :
    (∀ (checkRuns : List IRefCheck) (failedOnly : Bool)
        (fetch : Nat → Option IAPICheckSuite) (now : Int),
        determineRerunnability checkRuns failedOnly fetch now =
          classifyWithResults checkRuns failedOnly now
            (checkSuiteResults fetch
              (checkSuiteIds (checkRunsToConsider checkRuns failedOnly))))
    ∧ (∀ (checkRuns : List IRefCheck) (failedOnly : Bool) (now : Int)
        (r1 r2 : List (Option IAPICheckSuite)),
        r1.Perm r2 →
          classifyWithResults checkRuns failedOnly now r1 =
            classifyWithResults checkRuns failedOnly now r2)
    ∧ (∀ (checkRuns : List IRefCheck) (failedOnly : Bool),
        (suiteIdsToFetch (checkSuiteIds (checkRunsToConsider checkRuns failedOnly))).Nodup) := by
  refine ⟨fun _ _ _ _ => rfl, ?_, ?_⟩
  · intro checkRuns failedOnly now r1 r2 hperm
    have hpe : (rerequestableCheckSuiteIds now r1).Perm
        (rerequestableCheckSuiteIds now r2) := by
      rw [rerequestableCheckSuiteIds_eq_filterMap,
        rerequestableCheckSuiteIds_eq_filterMap]
      exact hperm.filterMap _
    have hinc : ∀ o : Option Nat,
        includesOpt (rerequestableCheckSuiteIds now r1) o =
          includesOpt (rerequestableCheckSuiteIds now r2) o := by
      intro o
      cases o with
      | none => rfl
      | some i => simp [includesOpt, hpe.mem_iff]
    simp only [classifyWithResults]
    have h1 : rerunnableOf (checkRunsToConsider checkRuns failedOnly)
        (rerequestableCheckSuiteIds now r1) =
        rerunnableOf (checkRunsToConsider checkRuns failedOnly)
          (rerequestableCheckSuiteIds now r2) := by
      unfold rerunnableOf
      congr 1
      funext cr
      rw [hinc]
    have h2 : nonRerunnableOf checkRuns (rerequestableCheckSuiteIds now r1)
        failedOnly =
        nonRerunnableOf checkRuns (rerequestableCheckSuiteIds now r2)
          failedOnly := by
      unfold nonRerunnableOf
      congr 1
      funext cr
      rw [hinc]
    rw [h1, h2]
  · intro checkRuns failedOnly
    rw [suiteIdsToFetch, checkSuiteIds]
    refine List.Nodup.filterMap ?_ (nodup_dedupKeepFirst _)
    intro a a' b hb hb'
    simp only [id, Option.mem_def] at hb hb'
    rw [hb, hb']

/-- Witness for C9: permuting two settled results leaves the partition of
the five-run example unchanged. -/
theorem classification_order_invariant_witness :
    classifyWithResults exampleFiveRuns true 0
        [ some { id := 1, createdAt := 0, rerequestable := true,
                 status := APICheckStatus.completed }
        , none ] =
      classifyWithResults exampleFiveRuns true 0
        [ none
        , some { id := 1, createdAt := 0, rerequestable := true,
                 status := APICheckStatus.completed } ] :=
  classification_order_invariant.2.1 exampleFiveRuns true 0 _ _ (by decide)

/-- C6: on confirm the trace requests the rerun submission for exactly the
current rerunnable set with `failedOnly` passed through, invokes the
status refresh (same revision reference, same rerunnable set) only after
the submission resolves, records the telemetry event without awaiting it
(no `await` separates it from the dismissal), and signals dismissal
last. -/
theorem submission_sequence (rerunnableRuns : List IRefCheck)
    (prRef : String) (failedOnly : Bool) :
    List.Sublist
        [ SubmitEvent.rerequestCheckSuites rerunnableRuns failedOnly
        , SubmitEvent.awaited
        , SubmitEvent.manualRefreshSubscription prRef rerunnableRuns
        , SubmitEvent.awaited ]
        (onSubmitTrace rerunnableRuns prRef failedOnly)
    ∧ (∀ (rs : List IRefCheck) (fo : Bool),
        SubmitEvent.rerequestCheckSuites rs fo ∈
            onSubmitTrace rerunnableRuns prRef failedOnly →
          rs = rerunnableRuns ∧ fo = failedOnly)
    ∧ (∀ (r : String) (rs : List IRefCheck),
        SubmitEvent.manualRefreshSubscription r rs ∈
            onSubmitTrace rerunnableRuns prRef failedOnly →
          r = prRef ∧ rs = rerunnableRuns)
    ∧ (∃ l, onSubmitTrace rerunnableRuns prRef failedOnly =
        l ++ [SubmitEvent.recordRerunChecks, SubmitEvent.onDismissed])
    ∧ (onSubmitTrace rerunnableRuns prRef failedOnly).getLast? =
        some SubmitEvent.onDismissed := by
  refine ⟨?_, ?_, ?_, ?_, rfl⟩
  · exact (List.sublist_append_left _ [SubmitEvent.recordRerunChecks,
      SubmitEvent.onDismissed]).cons SubmitEvent.setLoadingRerun
  · intro rs fo hmem
    simp only [onSubmitTrace, List.mem_cons, List.not_mem_nil, or_false] at hmem
    rcases hmem with h | h | h | h | h | h | h <;> simp_all
  · intro r rs hmem
    simp only [onSubmitTrace, List.mem_cons, List.not_mem_nil, or_false] at hmem
    rcases hmem with h | h | h | h | h | h | h <;> simp_all
  · exact ⟨[ SubmitEvent.setLoadingRerun
           , SubmitEvent.rerequestCheckSuites rerunnableRuns failedOnly
           , SubmitEvent.awaited
           , SubmitEvent.manualRefreshSubscription prRef rerunnableRuns
           , SubmitEvent.awaited ], rfl⟩

/-- Witness for C6: the ordered subsequence submission → resolution →
refresh → resolution occurs in a concrete trace, and any rerun request in
that trace carries exactly the rerunnable set and flag. -/
theorem submission_sequence_witness :
    List.Sublist
        [ SubmitEvent.rerequestCheckSuites
            [{ id := 1, checkSuiteId := some 1,
               conclusion := some APICheckConclusion.failure }] true
        , SubmitEvent.awaited
        , SubmitEvent.manualRefreshSubscription "refs/pull/1/head"
            [{ id := 1, checkSuiteId := some 1,
               conclusion := some APICheckConclusion.failure }]
        , SubmitEvent.awaited ]
        (onSubmitTrace
          [{ id := 1, checkSuiteId := some 1,
             conclusion := some APICheckConclusion.failure }]
          "refs/pull/1/head" true)
    ∧ ([{ id := 1, checkSuiteId := some 1,
          conclusion := some APICheckConclusion.failure : IRefCheck }] =
        [{ id := 1, checkSuiteId := some 1,
           conclusion := some APICheckConclusion.failure }]
        ∧ true = true) :=
  ⟨(submission_sequence
      [{ id := 1, checkSuiteId := some 1,
         conclusion := some APICheckConclusion.failure }]
      "refs/pull/1/head" true).1,
    (submission_sequence
      [{ id := 1, checkSuiteId := some 1,
         conclusion := some APICheckConclusion.failure }]
      "refs/pull/1/head" true).2.1 _ _ (by simp [onSubmitTrace])⟩

end RerunDialog
